import Mathlib

/-!
Shallow embedding of `src/main.rs` of rust-svg-converter.

The program is a small desktop utility. Its core is two methods on the
session struct `SvgConverterApp`:

* `update_dimensions` (main.rs lines 36-57): reads the file at `input_path`,
  parses it as SVG, records the truncated intrinsic size in
  `original_width`/`original_height`, and recomputes
  `will_be_width`/`will_be_height` from them and `scale`.
* `svg_to_png` (main.rs lines 59-92): reads and parses the source, computes
  `width = (size.width() as u32) * scale` (u32 arithmetic, wrapping on
  overflow in release builds), allocates a `Pixmap`, renders with
  `Transform::from_scale(scale, scale)`, saves as PNG to `output_path`, and
  on macOS spawns `open` on the result with `?` (propagating spawn errors).

File I/O and the two library entry points (`Tree::from_str` and the PNG
encoder) are modelled as an explicit environment; the session state and both
methods are translated line by line below.
-/

namespace SvgConverter

/-- Rust `f as u32` on an `f32`: rounds toward zero, saturating to
`[0, u32::MAX]`.  Intrinsic SVG sizes are modelled as rationals (usvg sizes
are positive finite floats, a subset of `ℚ`); for a nonnegative value,
rounding toward zero is the floor, and a negative value saturates to `0`
either way. -/
def truncU32 (q : ℚ) : Nat := min ⌊q⌋.toNat (2 ^ 32 - 1)

/-- Rust `u32` multiplication as compiled in release mode: wraps modulo
`2^32`. -/
def mulU32 (a b : Nat) : Nat := (a * b) % 2 ^ 32

/-- The fields of `struct SvgConverterApp` (main.rs lines 9-18).
`scale : u32` is carried as a `Nat` holding the u32 value. -/
structure AppState where
  input_path : String
  output_path : String
  scale : Nat
  status_message : String
  original_width : Option Nat
  original_height : Option Nat
  will_be_width : Option Nat
  will_be_height : Option Nat
deriving DecidableEq

/-- Outcome of `File::open` followed by `read_to_string` on a path. -/
inductive ReadOutcome where
  | openErr : ReadOutcome
  | readErr : ReadOutcome
  | ok : String → ReadOutcome
deriving DecidableEq

/-- `tiny_skia::Transform`, a 2D affine transform.
`Transform::from_scale(sx, sy)` sets only the two scale entries. -/
structure Transform where
  sx : ℚ
  kx : ℚ
  ky : ℚ
  sy : ℚ
  tx : ℚ
  ty : ℚ
deriving DecidableEq

/-- `tiny_skia::Transform::from_scale`: uniform entries, no skew, no
translation. -/
def Transform.fromScale (sx sy : ℚ) : Transform :=
  ⟨sx, 0, 0, sy, 0, 0⟩

/-- The artifact written to the destination path.  `resvg::render` and
`Pixmap::save_png` are deterministic library functions of the parsed
document, the transform and the pixmap dimensions, so the written PNG bytes
are determined by this record (the document itself is determined by the
source text, `Tree::from_str` being pure). -/
structure Rendered where
  width : Nat
  height : Nat
  source : String
  transform : Transform
deriving DecidableEq

/-- Environment: the file system and the ambient library/platform behavior.
`readFile` models `File::open` + `read_to_string`; `parse` models
`usvg::Tree::from_str` with `Options::default()` as a pure function from
source text to the intrinsic size (`none` = parse error); `saveOk` models
whether `save_png` succeeds; `macos` is `cfg(target_os = "macos")`;
`spawnOk` models whether `Command::new("open").spawn()` succeeds. -/
structure Env where
  readFile : String → ReadOutcome
  parse : String → Option (ℚ × ℚ)
  saveOk : Bool
  macos : Bool
  spawnOk : Bool

/-- `SvgConverterApp::update_dimensions` (main.rs lines 36-57), translated
clause by clause: an empty path clears the recorded original size; a
successful read-and-parse records the truncated intrinsic size; any failure
(`File::open` error, `read_to_string` error, `Tree::from_str` error) leaves
the previously recorded size in place.  The `will_be` fields are then always
recomputed from the (possibly stale) originals with u32 multiplication. -/
def update_dimensions (env : Env) (s : AppState) : AppState :=
  let s1 :=
    if s.input_path = "" then
      { s with original_width := none, original_height := none }
    else
      match env.readFile s.input_path with
      | .ok svg_data =>
        match env.parse svg_data with
        | some (w, h) =>
          { s with original_width := some (truncU32 w)
                   original_height := some (truncU32 h) }
        | none => s
      | _ => s
  { s1 with
    will_be_width := s1.original_width.map (fun w => mulU32 w s1.scale)
    will_be_height := s1.original_height.map (fun h => mulU32 h s1.scale) }

/-- The ways `svg_to_png` can return `Err` (it returns
`Result<(), Box<dyn Error>>`): `File::open` failure, `read_to_string`
failure, `Tree::from_str` failure, `Pixmap::new` returning `None`
(the `"Failed to create pixmap"` string error), `save_png` failure, and —
on macOS only — `Command::spawn` failure, propagated by the trailing `?`. -/
inductive ConvertError where
  | ioOpen : ConvertError
  | ioRead : ConvertError
  | parseFailed : ConvertError
  | allocFailed : ConvertError
  | writeFailed : ConvertError
  | spawnFailed : ConvertError
deriving DecidableEq

/-- The observable steps of `svg_to_png`, in source order, for stating the
ordering of the pipeline. -/
inductive Step where
  | readSrc : Step
  | parseDoc : Step
  | computeDims : Step
  | allocPixmap : Step
  | renderDoc : Step
  | writePng : Step
deriving DecidableEq

/-- Result of one `svg_to_png` call: the returned `Result`, the destination
file system afterwards (path → written artifact), and the trace of completed
steps. -/
structure ConvertResult where
  result : Except ConvertError Unit
  fs : String → Option Rendered
  trace : List Step

/-- `SvgConverterApp::svg_to_png` (main.rs lines 59-92), translated line by
line.  `width`/`height` are u32 products (wrapping).  `Pixmap::new` returns
`None` iff a dimension is zero or the checked RGBA byte length
`4 * width * height` overflows `usize` (64-bit).  On success the pixmap is
rendered with `Transform::from_scale(scale as f32, scale as f32)` and saved
to `output_path`, overwriting it; then, on macOS only, `open` is spawned on
the result and a spawn failure is propagated by `?` — after the file was
already written. -/
def svg_to_png (env : Env) (fs : String → Option Rendered) (s : AppState) :
    ConvertResult :=
  match env.readFile s.input_path with
  | .openErr => ⟨.error .ioOpen, fs, []⟩
  | .readErr => ⟨.error .ioRead, fs, []⟩
  | .ok svg_data =>
    match env.parse svg_data with
    | none => ⟨.error .parseFailed, fs, [.readSrc]⟩
    | some (w, h) =>
      let width := mulU32 (truncU32 w) s.scale
      let height := mulU32 (truncU32 h) s.scale
      if width = 0 ∨ height = 0 ∨ 2 ^ 64 ≤ 4 * (width * height) then
        ⟨.error .allocFailed, fs, [.readSrc, .parseDoc, .computeDims]⟩
      else
        let transform := Transform.fromScale (s.scale : ℚ) (s.scale : ℚ)
        let pix : Rendered := ⟨width, height, svg_data, transform⟩
        if env.saveOk then
          let fs2 := fun p => if p = s.output_path then some pix else fs p
          if env.macos && !env.spawnOk then
            ⟨.error .spawnFailed, fs2,
              [.readSrc, .parseDoc, .computeDims, .allocPixmap, .renderDoc,
               .writePng]⟩
          else
            ⟨.ok (), fs2,
              [.readSrc, .parseDoc, .computeDims, .allocPixmap, .renderDoc,
               .writePng]⟩
        else
          ⟨.error .writeFailed, fs,
            [.readSrc, .parseDoc, .computeDims, .allocPixmap, .renderDoc]⟩

/-- The load pipeline of `update_dimensions` fails on `path`: open error,
read error, or parse error on the content. -/
def loadFails (env : Env) (path : String) : Bool :=
  match env.readFile path with
  | .openErr => true
  | .readErr => true
  | .ok svg_data => (env.parse svg_data).isNone

/-! ## Helper constructions for concrete instances -/

/-- An environment in which every path reads to `content` and parsing yields
the intrinsic size `(w, h)`; saving succeeds, non-macOS target. -/
def mkEnv (content : String) (w h : ℚ) : Env :=
  { readFile := fun _ => .ok content
    parse := fun _ => some (w, h)
    saveOk := true
    macos := false
    spawnOk := true }

/-- A fresh session state with the given paths and scale (the other fields
as in `Default::default`). -/
def mkState (inp out : String) (sc : Nat) : AppState :=
  ⟨inp, out, sc, "", none, none, none, none⟩

/-- An empty destination file system. -/
def fsEmpty : String → Option Rendered := fun _ => none

/-- The pixmap/PNG artifact a successful run writes for source `svg_data`
of intrinsic size `(w, h)` at scale `sc`. -/
def pixOf (svg_data : String) (w h : ℚ) (sc : Nat) : Rendered :=
  ⟨mulU32 (truncU32 w) sc, mulU32 (truncU32 h) sc, svg_data,
   Transform.fromScale (sc : ℚ) (sc : ℚ)⟩

/-- The pixmap-allocation failure condition of `Pixmap::new` at the computed
dimensions. -/
def allocFails (w h : ℚ) (sc : Nat) : Prop :=
  mulU32 (truncU32 w) sc = 0 ∨ mulU32 (truncU32 h) sc = 0 ∨
    2 ^ 64 ≤ 4 * (mulU32 (truncU32 w) sc * mulU32 (truncU32 h) sc)

/-! ## Structural lemmas about `svg_to_png` -/

/-- If the read and parse succeed, allocation succeeds, saving succeeds and
the macOS `open` does not fail, then `svg_to_png` returns `Ok` and writes
the scaled pixmap to the output path. -/
lemma svg_to_png_ok_eq (env : Env) (fs : String → Option Rendered)
    (s : AppState) (w h : ℚ) (svg_data : String)
    (hread : env.readFile s.input_path = .ok svg_data)
    (hparse : env.parse svg_data = some (w, h))
    (halloc : ¬ allocFails w h s.scale)
    (hsave : env.saveOk = true)
    (hspawn : (env.macos && !env.spawnOk) = false) :
    svg_to_png env fs s =
      ⟨.ok (),
       fun p => if p = s.output_path then some (pixOf svg_data w h s.scale)
                else fs p,
       [.readSrc, .parseDoc, .computeDims, .allocPixmap, .renderDoc,
        .writePng]⟩ := by
  unfold svg_to_png
  rw [hread]
  dsimp only
  rw [hparse]
  dsimp only
  split
  · next hc => exact absurd hc (by simpa [allocFails] using halloc)
  · simp [hsave, hspawn, pixOf]

/-- If the read and parse succeed but `svg_to_png` returns `Ok`, then the
allocation condition did not fire, saving succeeded and the macOS spawn did
not fail. -/
lemma svg_to_png_ok_inv (env : Env) (fs : String → Option Rendered)
    (s : AppState) (w h : ℚ) (svg_data : String)
    (hread : env.readFile s.input_path = .ok svg_data)
    (hparse : env.parse svg_data = some (w, h))
    (hok : (svg_to_png env fs s).result = .ok ()) :
    ¬ allocFails w h s.scale ∧ env.saveOk = true ∧
      (env.macos && !env.spawnOk) = false := by
  unfold svg_to_png at hok
  rw [hread] at hok
  dsimp only at hok
  rw [hparse] at hok
  dsimp only at hok
  split at hok
  · exact absurd hok (by simp)
  · next hc =>
    by_cases hsave : env.saveOk
    · by_cases hspawn : (env.macos && !env.spawnOk) = true
      · simp [hsave, hspawn] at hok
      · exact ⟨by simpa [allocFails] using hc, hsave,
          by simpa using hspawn⟩
    · simp [hsave] at hok

/-! ## Claims -/

/-- C1 (amended): for every successful conversion of a source whose
intrinsic size truncates to `(w, h)` at scale `s`, the written raster's
dimensions are the u32 products `(w·s) mod 2^32` and `(h·s) mod 2^32`
(the multiplication wraps on u32 overflow); whenever the products fit in
u32 — in particular for all realistic sizes — they are exactly `w·s` and
`h·s`. -/
theorem C1_raster_dims (env : Env) (fs : String → Option Rendered)
    (s : AppState) (w h : ℚ) (svg_data : String)
    (hread : env.readFile s.input_path = .ok svg_data)
    (hparse : env.parse svg_data = some (w, h))
    (hok : (svg_to_png env fs s).result = .ok ()) :
    ((svg_to_png env fs s).fs s.output_path).map Rendered.width
        = some (mulU32 (truncU32 w) s.scale) ∧
    ((svg_to_png env fs s).fs s.output_path).map Rendered.height
        = some (mulU32 (truncU32 h) s.scale) ∧
    (truncU32 w * s.scale < 2 ^ 32 →
        mulU32 (truncU32 w) s.scale = truncU32 w * s.scale) ∧
    (truncU32 h * s.scale < 2 ^ 32 →
        mulU32 (truncU32 h) s.scale = truncU32 h * s.scale) := by
  obtain ⟨halloc, hsave, hspawn⟩ :=
    svg_to_png_ok_inv env fs s w h svg_data hread hparse hok
  rw [svg_to_png_ok_eq env fs s w h svg_data hread hparse halloc hsave hspawn]
  exact ⟨by simp [pixOf], by simp [pixOf],
    fun hlt => Nat.mod_eq_of_lt hlt, fun hlt => Nat.mod_eq_of_lt hlt⟩

/-- C1 witness: a 100×50 SVG at scale 4 yields a 400×200 raster. -/
theorem C1_raster_dims_witness :
    ((svg_to_png (mkEnv "svg" 100 50) fsEmpty (mkState "a.svg" "out.png" 4)).fs
        "out.png").map Rendered.width = some 400 ∧
    ((svg_to_png (mkEnv "svg" 100 50) fsEmpty (mkState "a.svg" "out.png" 4)).fs
        "out.png").map Rendered.height = some 200 :=
  ⟨(C1_raster_dims (mkEnv "svg" 100 50) fsEmpty (mkState "a.svg" "out.png" 4)
      100 50 "svg" rfl rfl rfl).1,
   (C1_raster_dims (mkEnv "svg" 100 50) fsEmpty (mkState "a.svg" "out.png" 4)
      100 50 "svg" rfl rfl rfl).2.1⟩

/-- C1 counterexample: an SVG whose intrinsic width truncates to
67108872 = 2^26 + 8 (exactly representable as f32), converted at scale 64,
converts successfully but the written raster is 512 pixels wide — not
67108872 · 64 = 4294967808 — because the u32 product wraps modulo 2^32. -/
theorem C1_counterexample :
    (svg_to_png (mkEnv "svgbig" 67108872 1) fsEmpty
        (mkState "a.svg" "out.png" 64)).result = .ok () ∧
    ((svg_to_png (mkEnv "svgbig" 67108872 1) fsEmpty
        (mkState "a.svg" "out.png" 64)).fs "out.png").map Rendered.width
      = some 512 ∧
    (512 : Nat) ≠ 67108872 * 64 :=
  ⟨rfl, rfl, by decide⟩

/-- C2: on the macOS build, when read, parse, allocation and the PNG write
all succeed but spawning `open` on the result fails, `svg_to_png` returns
the spawn error (propagated by the trailing `?` in main.rs lines 86-89)
even though the PNG was already written — the auto-open failure does change
the conversion's own result, contradicting the fire-and-forget contract. -/
theorem C2_spawn_eval :
    (svg_to_png { mkEnv "svg" 100 50 with macos := true, spawnOk := false }
        fsEmpty (mkState "a.svg" "out.png" 4)).result
      = .error .spawnFailed ∧
    ((svg_to_png { mkEnv "svg" 100 50 with macos := true, spawnOk := false }
        fsEmpty (mkState "a.svg" "out.png" 4)).fs "out.png").map
        Rendered.width = some 400 :=
  ⟨rfl, rfl⟩

/-- C4: at the failing input — intrinsic size truncating to (67108872, 2),
scale 64 — the u32 dimension products wrap to 512 and 128, `Pixmap::new`
succeeds on the wrapped values, and the conversion returns `Ok` with a
512×128 raster instead of the allocation-class error the spec requires when
`width·scale` overflows u32. -/
theorem C4_overflow_eval :
    (svg_to_png (mkEnv "svgbig2" 67108872 2) fsEmpty
        (mkState "b.svg" "out.png" 64)).result = .ok () ∧
    ((svg_to_png (mkEnv "svgbig2" 67108872 2) fsEmpty
        (mkState "b.svg" "out.png" 64)).fs "out.png").map Rendered.width
      = some 512 ∧
    ((svg_to_png (mkEnv "svgbig2" 67108872 2) fsEmpty
        (mkState "b.svg" "out.png" 64)).fs "out.png").map Rendered.height
      = some 128 :=
  ⟨rfl, rfl, rfl⟩

/-- Concrete environment for C3: opening any path fails. -/
def envC3 : Env := ⟨fun _ => .openErr, fun _ => none, true, false, true⟩

/-- Concrete session state for C3: a non-empty input path and previously
recorded dimensions 100×50. -/
def stC3 : AppState :=
  ⟨"missing.svg", "out.png", 2, "", some 100, some 50, some 200, some 100⟩

/-- C3 counterexample: with a non-empty input path whose open fails and
previously recorded original size 100×50, `update_dimensions` leaves the
stale recorded size in place instead of clearing it to `none`: the recorded
original width is still `some 100`, not `none`. -/
theorem C3_counterexample :
    (update_dimensions envC3 stC3).original_width = some 100 ∧
    (update_dimensions envC3 stC3).original_width ≠ none ∧
    (update_dimensions envC3 stC3).original_height = some 50 :=
  ⟨rfl, by decide, rfl⟩

/-- C3 (amended): after `update_dimensions` the recorded original
dimensions are `none` when the input path is empty; when the path is
non-empty and the load fails (open, read or parse error) the previously
recorded dimensions are left unchanged — so they are reported absent after
a failed load only if they were already absent before the call. -/
theorem C3_load_failure (env : Env) (s : AppState) :
    (s.input_path = "" →
      (update_dimensions env s).original_width = none ∧
      (update_dimensions env s).original_height = none) ∧
    (s.input_path ≠ "" → loadFails env s.input_path = true →
      (update_dimensions env s).original_width = s.original_width ∧
      (update_dimensions env s).original_height = s.original_height) := by
  constructor
  · intro hemp
    simp [update_dimensions, hemp]
  · intro hne hfail
    unfold loadFails at hfail
    cases hr : env.readFile s.input_path with
    | openErr => simp [update_dimensions, hne, hr]
    | readErr => simp [update_dimensions, hne, hr]
    | ok svg_data =>
      rw [hr] at hfail
      dsimp only at hfail
      cases hp : env.parse svg_data with
      | none => simp [update_dimensions, hne, hr, hp]
      | some wh => rw [hp] at hfail; simp at hfail

/-- C3 witness: at the concrete failing-load state, the stale dimensions
100×50 are indeed retained by `update_dimensions`. -/
theorem C3_load_failure_witness :
    (update_dimensions envC3 stC3).original_width = some 100 ∧
    (update_dimensions envC3 stC3).original_height = some 50 :=
  (C3_load_failure envC3 stC3).2 (by decide) rfl

/-- The u32 product with scale 0 is 0. -/
lemma mulU32_zero (a : Nat) : mulU32 a 0 = 0 := by simp [mulU32]

/-- `svg_to_png` either leaves the destination file system untouched, or it
returned `Ok` or the macOS spawn error — the only two outcomes that occur
after the PNG write. -/
lemma svg_to_png_fs_or (env : Env) (fs : String → Option Rendered)
    (s : AppState) :
    (svg_to_png env fs s).fs = fs ∨
    ((svg_to_png env fs s).result = .ok () ∨
      (svg_to_png env fs s).result = .error .spawnFailed) := by
  unfold svg_to_png
  cases env.readFile s.input_path with
  | openErr => exact .inl rfl
  | readErr => exact .inl rfl
  | ok svg_data =>
    dsimp only
    cases env.parse svg_data with
    | none => exact .inl rfl
    | some wh =>
      obtain ⟨w, h⟩ := wh
      dsimp only
      split
      · exact .inl rfl
      · split
        · split
          · exact .inr (.inr rfl)
          · exact .inr (.inl rfl)
        · exact .inl rfl

/-- C5: with scale 0 the conversion always fails and the destination file
system is untouched (no file created or truncated); whenever the source
reads and parses, the failure is the pixmap-allocation error, raised before
the PNG write since the computed width is 0.  Moreover, for any scale,
every error raised before the PNG write (open, read, parse or allocation
error) leaves the destination unchanged. -/
theorem C5_scale_zero (env : Env) (fs : String → Option Rendered)
    (s : AppState) :
    (s.scale = 0 →
      (∀ u, (svg_to_png env fs s).result ≠ .ok u) ∧
      (svg_to_png env fs s).fs = fs ∧
      (∀ svg_data w h, env.readFile s.input_path = .ok svg_data →
        env.parse svg_data = some (w, h) →
        (svg_to_png env fs s).result = .error .allocFailed)) ∧
    (∀ e, (svg_to_png env fs s).result = .error e →
      e ≠ .writeFailed → e ≠ .spawnFailed →
      (svg_to_png env fs s).fs = fs) := by
  constructor
  · intro hsc
    refine ⟨?_, ?_, ?_⟩
    · intro u
      unfold svg_to_png
      cases hr : env.readFile s.input_path with
      | openErr => simp
      | readErr => simp
      | ok svg_data =>
        dsimp only
        cases hp : env.parse svg_data with
        | none => simp
        | some wh =>
          obtain ⟨w, h⟩ := wh
          dsimp only
          rw [hsc]
          simp [mulU32_zero]
    · unfold svg_to_png
      cases hr : env.readFile s.input_path with
      | openErr => rfl
      | readErr => rfl
      | ok svg_data =>
        dsimp only
        cases hp : env.parse svg_data with
        | none => rfl
        | some wh =>
          obtain ⟨w, h⟩ := wh
          dsimp only
          rw [hsc]
          simp [mulU32_zero]
    · intro svg_data w h hr hp
      unfold svg_to_png
      rw [hr]
      dsimp only
      rw [hp]
      dsimp only
      rw [hsc]
      simp [mulU32_zero]
  · intro e he h1 h2
    rcases svg_to_png_fs_or env fs s with hfs | hok | hsp
    · exact hfs
    · rw [he] at hok
      simp at hok
    · rw [he] at hsp
      simp only [Except.error.injEq] at hsp
      exact absurd hsp h2

/-- Concrete environment for the C5 witness: reads succeed with a parseable
100×50 source. -/
def envC5 : Env := mkEnv "svg" 100 50

/-- C5 witness: converting at scale 0 at a concrete state fails with the
allocation error and the (empty) destination file system is unchanged. -/
theorem C5_scale_zero_witness :
    (svg_to_png envC5 fsEmpty (mkState "a.svg" "out.png" 0)).result
      = .error .allocFailed ∧
    (svg_to_png envC5 fsEmpty (mkState "a.svg" "out.png" 0)).fs = fsEmpty :=
  ⟨((C5_scale_zero envC5 fsEmpty (mkState "a.svg" "out.png" 0)).1 rfl).2.2
      "svg" 100 50 rfl rfl,
   ((C5_scale_zero envC5 fsEmpty (mkState "a.svg" "out.png" 0)).1 rfl).2.1⟩

/-- For a value in the representable range, the Rust `as u32` cast of a
nonnegative size is exactly the floor (= rounding toward zero for
nonnegative numbers). -/
lemma truncU32_eq_floor (q : ℚ) (h0 : 0 ≤ q) (hlt : q < 2 ^ 32 - 1) :
    (truncU32 q : ℤ) = ⌊q⌋ := by
  have hfl0 : 0 ≤ ⌊q⌋ := Int.floor_nonneg.mpr h0
  have hflt : ⌊q⌋ < 2 ^ 32 - 1 := by
    have hle : (⌊q⌋ : ℚ) ≤ q := Int.floor_le q
    have h2 : (⌊q⌋ : ℚ) < 2 ^ 32 - 1 := lt_of_le_of_lt hle hlt
    exact_mod_cast h2
  have hmin : ⌊q⌋.toNat ≤ 2 ^ 32 - 1 := by omega
  unfold truncU32
  rw [min_eq_left hmin]
  exact Int.toNat_of_nonneg hfl0

/-- C6: for a successfully read and parsed SVG on a non-empty path, the
dimension query records the intrinsic size rounded toward zero to the
nearest unsigned integer (for sizes in the u32 range this is the floor,
`truncU32`), and the projected size is computed by multiplying the
already-truncated integers by the scale — truncation happens before the
multiplication. -/
theorem C6_truncation (env : Env) (s : AppState) (w h : ℚ)
    (svg_data : String)
    (hne : s.input_path ≠ "")
    (hread : env.readFile s.input_path = .ok svg_data)
    (hparse : env.parse svg_data = some (w, h)) :
    (update_dimensions env s).original_width = some (truncU32 w) ∧
    (update_dimensions env s).original_height = some (truncU32 h) ∧
    (update_dimensions env s).will_be_width
      = some (mulU32 (truncU32 w) s.scale) ∧
    (update_dimensions env s).will_be_height
      = some (mulU32 (truncU32 h) s.scale) ∧
    (0 ≤ w → w < 2 ^ 32 - 1 → (truncU32 w : ℤ) = ⌊w⌋) ∧
    (0 ≤ h → h < 2 ^ 32 - 1 → (truncU32 h : ℤ) = ⌊h⌋) := by
  refine ⟨?_, ?_, ?_, ?_, truncU32_eq_floor w, truncU32_eq_floor h⟩ <;>
    simp [update_dimensions, hne, hread, hparse]

/-- C6 witness: a source of intrinsic size 100.7 × 50.5 at scale 3 records
original size 100×50 (rounded toward zero) and projects 300×150
(truncate, then multiply — not `⌊100.7 · 3⌋ = 302`). -/
theorem C6_truncation_witness :
    (update_dimensions (mkEnv "svgf" (mkRat 1007 10) (mkRat 101 2))
        (mkState "a.svg" "out.png" 3)).original_width = some 100 ∧
    (update_dimensions (mkEnv "svgf" (mkRat 1007 10) (mkRat 101 2))
        (mkState "a.svg" "out.png" 3)).original_height = some 50 ∧
    (update_dimensions (mkEnv "svgf" (mkRat 1007 10) (mkRat 101 2))
        (mkState "a.svg" "out.png" 3)).will_be_width = some 300 ∧
    (update_dimensions (mkEnv "svgf" (mkRat 1007 10) (mkRat 101 2))
        (mkState "a.svg" "out.png" 3)).will_be_height = some 150 := by
  have hc := C6_truncation (mkEnv "svgf" (mkRat 1007 10) (mkRat 101 2))
    (mkState "a.svg" "out.png" 3) (mkRat 1007 10) (mkRat 101 2) "svgf"
    (by decide) rfl rfl
  exact ⟨hc.1.trans (by decide), hc.2.1.trans (by decide),
    hc.2.2.1.trans (by decide), hc.2.2.2.1.trans (by decide)⟩

/-- C7 counterexample: for a source whose intrinsic width truncates to
67108872, at scale 64 the recorded original width is `some 67108872` but
the projected width is `some 512` (the u32 product wraps), not
`some (67108872 · 64)` as the claim's invariant requires. -/
theorem C7_counterexample :
    (update_dimensions (mkEnv "svgbig" 67108872 1)
        (mkState "a.svg" "out.png" 64)).original_width = some 67108872 ∧
    (update_dimensions (mkEnv "svgbig" 67108872 1)
        (mkState "a.svg" "out.png" 64)).will_be_width
      ≠ some (67108872 * 64) :=
  ⟨rfl, by decide⟩

/-- C7 (amended): after every call to `update_dimensions`, the projected
dimensions equal the recorded original dimensions times the current scale
factor reduced modulo 2^32 (u32 multiplication) whenever originals are
present, and are `none` whenever the originals are `none`. -/
theorem C7_invariant (env : Env) (s : AppState) :
    ((update_dimensions env s).original_width = none →
      (update_dimensions env s).will_be_width = none) ∧
    ((update_dimensions env s).original_height = none →
      (update_dimensions env s).will_be_height = none) ∧
    (∀ w, (update_dimensions env s).original_width = some w →
      (update_dimensions env s).will_be_width = some (mulU32 w s.scale)) ∧
    (∀ h, (update_dimensions env s).original_height = some h →
      (update_dimensions env s).will_be_height = some (mulU32 h s.scale)) := by
  by_cases hemp : s.input_path = ""
  · simp [update_dimensions, hemp]
  · cases hr : env.readFile s.input_path with
    | openErr =>
      cases how : s.original_width <;> cases hoh : s.original_height <;>
        simp [update_dimensions, hemp, hr, how, hoh]
    | readErr =>
      cases how : s.original_width <;> cases hoh : s.original_height <;>
        simp [update_dimensions, hemp, hr, how, hoh]
    | ok svg_data =>
      cases hp : env.parse svg_data with
      | none =>
        cases how : s.original_width <;> cases hoh : s.original_height <;>
          simp [update_dimensions, hemp, hr, hp, how, hoh]
      | some wh =>
        obtain ⟨w, h⟩ := wh
        simp [update_dimensions, hemp, hr, hp]

/-- C7 witness: at a concrete state with original width 100 and scale 4,
the projected width after `update_dimensions` is `some 400`. -/
theorem C7_invariant_witness :
    (update_dimensions (mkEnv "svg" 100 50)
        (mkState "a.svg" "out.png" 4)).will_be_width = some 400 :=
  (C7_invariant (mkEnv "svg" 100 50) (mkState "a.svg" "out.png" 4)).2.2.1
    100 rfl

/-- C8: conversion is deterministic and depends only on the source file
contents and the scale (and the fixed, pure library functions): two runs
with the same source contents, destination path and scale — even from
sessions that differ in every other field and over destination file systems
with different prior contents — return the same result, and when they
succeed they write the identical artifact (hence byte-for-byte identical
PNG output, the encoder being a deterministic function of the artifact). -/
theorem C8_deterministic (env : Env) (fs fs' : String → Option Rendered)
    (s s' : AppState) (svg_data : String)
    (h1 : env.readFile s.input_path = .ok svg_data)
    (h2 : env.readFile s'.input_path = .ok svg_data)
    (hout : s.output_path = s'.output_path)
    (hscale : s.scale = s'.scale) :
    (svg_to_png env fs s).result = (svg_to_png env fs' s').result ∧
    ((svg_to_png env fs s).result = .ok () →
      (svg_to_png env fs s).fs s.output_path
        = (svg_to_png env fs' s').fs s'.output_path) := by
  unfold svg_to_png
  rw [h1, h2]
  dsimp only
  rw [← hscale, ← hout]
  cases env.parse svg_data with
  | none => exact ⟨rfl, fun hk => by simp at hk⟩
  | some wh =>
    obtain ⟨w, h⟩ := wh
    dsimp only
    by_cases hc : (mulU32 (truncU32 w) s.scale = 0 ∨
        mulU32 (truncU32 h) s.scale = 0 ∨
        2 ^ 64 ≤ 4 * (mulU32 (truncU32 w) s.scale *
          mulU32 (truncU32 h) s.scale))
    · simp only [if_pos hc]
      exact ⟨trivial, fun hk => by simp at hk⟩
    · simp only [if_neg hc]
      by_cases hsave : env.saveOk = true
      · by_cases hspawn : (env.macos && !env.spawnOk) = true
        · simp only [if_pos hsave, if_pos hspawn]
          exact ⟨trivial, fun hk => by simp at hk⟩
        · simp only [if_pos hsave, if_neg hspawn]
          exact ⟨trivial, fun _ => by simp⟩
      · simp only [if_neg hsave]
        exact ⟨trivial, fun hk => by simp at hk⟩

/-- C8 witness: two sessions differing in input path (but reading identical
contents), status message, stale dimensions and prior destination contents
write the identical artifact at "out.png". -/
theorem C8_deterministic_witness :
    (svg_to_png (mkEnv "svg" 100 50) fsEmpty
        (mkState "a.svg" "out.png" 4)).fs "out.png"
      = (svg_to_png (mkEnv "svg" 100 50)
          (fun _ => some ⟨1, 1, "old", Transform.fromScale 1 1⟩)
          ⟨"b.svg", "out.png", 4, "previous status", some 7, some 9,
           some 28, some 36⟩).fs "out.png" :=
  (C8_deterministic (mkEnv "svg" 100 50) fsEmpty
    (fun _ => some ⟨1, 1, "old", Transform.fromScale 1 1⟩)
    (mkState "a.svg" "out.png" 4)
    ⟨"b.svg", "out.png", 4, "previous status", some 7, some 9, some 28,
     some 36⟩ "svg" rfl rfl rfl rfl).2 rfl

/-- C9: every successful conversion performed its steps in the order
read source → parse → compute scaled dimensions → allocate pixmap →
render → encode-and-write (overwriting the destination), and the written
artifact was rendered with the uniform scale transform
`from_scale(scale, scale)`: equal diagonal scale entries and zero skew and
zero translation components. -/
theorem C9_pipeline (env : Env) (fs : String → Option Rendered)
    (s : AppState)
    (hok : (svg_to_png env fs s).result = .ok ()) :
    (svg_to_png env fs s).trace
      = [.readSrc, .parseDoc, .computeDims, .allocPixmap, .renderDoc,
         .writePng] ∧
    ∃ r, (svg_to_png env fs s).fs s.output_path = some r ∧
      r.transform = Transform.fromScale (s.scale : ℚ) (s.scale : ℚ) ∧
      r.transform.sx = (s.scale : ℚ) ∧ r.transform.sy = (s.scale : ℚ) ∧
      r.transform.kx = 0 ∧ r.transform.ky = 0 ∧
      r.transform.tx = 0 ∧ r.transform.ty = 0 := by
  cases hr : env.readFile s.input_path with
  | openErr => rw [svg_to_png, hr] at hok; simp at hok
  | readErr => rw [svg_to_png, hr] at hok; simp at hok
  | ok svg_data =>
    cases hp : env.parse svg_data with
    | none => rw [svg_to_png, hr] at hok; dsimp only at hok
              rw [hp] at hok; simp at hok
    | some wh =>
      obtain ⟨w, h⟩ := wh
      obtain ⟨halloc, hsave, hspawn⟩ :=
        svg_to_png_ok_inv env fs s w h svg_data hr hp hok
      rw [svg_to_png_ok_eq env fs s w h svg_data hr hp halloc hsave hspawn]
      exact ⟨rfl, pixOf svg_data w h s.scale, by simp [pixOf],
        rfl, rfl, rfl, rfl, rfl, rfl, rfl⟩

/-- C9 witness: the concrete 100×50 conversion at scale 4 runs the six
steps in order and writes an artifact carrying the uniform scale-4
transform with zero translation. -/
theorem C9_pipeline_witness :
    (svg_to_png (mkEnv "svg" 100 50) fsEmpty
        (mkState "a.svg" "out.png" 4)).trace
      = [.readSrc, .parseDoc, .computeDims, .allocPixmap, .renderDoc,
         .writePng] ∧
    ∃ r, (svg_to_png (mkEnv "svg" 100 50) fsEmpty
        (mkState "a.svg" "out.png" 4)).fs "out.png" = some r ∧
      r.transform = Transform.fromScale ((4 : Nat) : ℚ) ((4 : Nat) : ℚ) ∧
      r.transform.sx = ((4 : Nat) : ℚ) ∧ r.transform.sy = ((4 : Nat) : ℚ) ∧
      r.transform.kx = 0 ∧ r.transform.ky = 0 ∧
      r.transform.tx = 0 ∧ r.transform.ty = 0 :=
  C9_pipeline (mkEnv "svg" 100 50) fsEmpty (mkState "a.svg" "out.png" 4) rfl

/-- C10: `update_dimensions` only touches the four dimension fields; the
input path, output path, scale factor and status message of the session are
unchanged by the call, for every environment and state. -/
theorem C10_frame (env : Env) (s : AppState) :
    (update_dimensions env s).input_path = s.input_path ∧
    (update_dimensions env s).output_path = s.output_path ∧
    (update_dimensions env s).scale = s.scale ∧
    (update_dimensions env s).status_message = s.status_message := by
  by_cases hemp : s.input_path = ""
  · simp [update_dimensions, hemp]
  · cases hr : env.readFile s.input_path with
    | openErr => simp [update_dimensions, hemp, hr]
    | readErr => simp [update_dimensions, hemp, hr]
    | ok svg_data =>
      cases hp : env.parse svg_data with
      | none => simp [update_dimensions, hemp, hr, hp]
      | some wh =>
        obtain ⟨w, h⟩ := wh
        simp [update_dimensions, hemp, hr, hp]

end SvgConverter
